import Mathlib

/-!
Verification of the net-metering core of `shelly-script.js` (Shelly Pro 3EM
net-metering script).

Shallow embedding conventions:

* JavaScript numbers are modelled as `ℚ`.  The script's two readers
  (`readTotalPowerW`, `readTotalsWh`) return `null` whenever the underlying
  sample is missing or fails `isNumber` (i.e. is not a finite number), so a
  per-tick power sample is modelled as `Option ℚ` (`none` = unavailable or
  non-finite) and a per-tick reference reading as `Option (ℚ × ℚ)`.  All
  arithmetic the script performs on values that passed those filters is exact
  rational arithmetic; the script's internal `isNumber` re-checks on computed
  values (`isNumber(delta_energy_integrate_sum)`, `isNumber(correction_factor)`)
  are identically true in this model and are noted where they occur.
* `Shelly.getUptimeMs()` is modelled as a single clock value per tick: the
  script calls it several times inside one `tick()`, and the model assumes the
  clock does not advance within a single synchronous tick body.
* The mutable module-level globals of the script form the state record `S`;
  `tick` is the script's `tick()` driven by one `Input` (clock, power sample,
  reference reading), returning the new state together with a `Bool` that
  records whether `applyCorrectionIfReady` applied a correction this tick.
-/

set_option maxRecDepth 8000

/-- One tick's worth of external inputs: the uptime clock value, the power
sampler output (`none` = unavailable or non-finite, as filtered by
`readTotalPowerW`), and the reference counter reading (`none` = unavailable or
either component non-finite, as filtered by `readTotalsWh`). -/
structure Input where
  now_ms : ℚ
  power_w : Option ℚ
  totals : Option (ℚ × ℚ)
  deriving DecidableEq, Repr

/-- The script's mutable core state (module-level globals, lines 79-102 of
`shelly-script.js`).  `Option ℚ` fields model variables initialised to `null`. -/
structure S where
  net_metered_energy_wh : ℚ
  net_metered_energy_ret_wh : ℚ
  delta_energy_integrate_wh : ℚ
  delta_energy_ret_integrate_wh : ℚ
  baseline_total_energy_wh : Option ℚ
  baseline_total_energy_ret_wh : Option ℚ
  last_seen_total_energy_wh : Option ℚ
  last_seen_total_energy_ret_wh : Option ℚ
  totals_changed_since_last_correction : Bool
  totals_last_change_uptime_ms : ℚ
  last_correction_uptime_ms : ℚ
  last_integration_uptime_ms : Option ℚ
  deriving DecidableEq, Repr

/-- The script's `ENERGY_EPSILON_WH = 0.001`. -/
def ENERGY_EPSILON_WH : ℚ := 1 / 1000

/-- The script's `isNumber(x)` (`typeof x === "number" && isFinite(x)`) applied
to a variable that is either `null` or a finite number, which is how every
`Option ℚ`-valued variable of the model arises. -/
def isNumber (x : Option ℚ) : Bool :=
  x.isSome

/-- The JavaScript builtin `Math.abs(x)` on a finite number. -/
def jsAbs (x : ℚ) : ℚ :=
  if x < 0 then -x else x

/-- The script's `clampMinMax(value, minValue, maxValue)`. -/
def clampMinMax (value minValue maxValue : ℚ) : ℚ :=
  if value < minValue then minValue
  else if value > maxValue then maxValue
  else value

/-- The script's `integratePower()` (lines 291-314), with the clock value and
the (already `isNumber`-filtered) power sample passed explicitly. -/
def integratePower (s : S) (now_ms : ℚ) (power_w : Option ℚ) : S :=
  match s.last_integration_uptime_ms with
  | none => { s with last_integration_uptime_ms := some now_ms }
  | some last =>
    let dt_ms := now_ms - last
    if dt_ms ≤ 0 then s
    else
      let s := { s with last_integration_uptime_ms := some now_ms }
      match power_w with
      | none => s
      | some p =>
        let energy_wh := p * (dt_ms / 3600000)
        if 0 ≤ energy_wh then
          { s with delta_energy_integrate_wh := s.delta_energy_integrate_wh + energy_wh }
        else
          { s with delta_energy_ret_integrate_wh := s.delta_energy_ret_integrate_wh + (-energy_wh) }

/-- The script's `startNewWindowBaselineIfNeeded(total_energy_wh,
total_energy_ret_wh)` (lines 317-337). -/
def startNewWindowBaselineIfNeeded (s : S) (now_ms total_energy_wh total_energy_ret_wh : ℚ) : S :=
  if !(isNumber s.baseline_total_energy_wh) || !(isNumber s.baseline_total_energy_ret_wh) then
    { s with
      baseline_total_energy_wh := some total_energy_wh
      baseline_total_energy_ret_wh := some total_energy_ret_wh
      last_seen_total_energy_wh := some total_energy_wh
      last_seen_total_energy_ret_wh := some total_energy_ret_wh
      totals_changed_since_last_correction := false
      totals_last_change_uptime_ms := now_ms
      last_correction_uptime_ms := now_ms
      delta_energy_integrate_wh := 0
      delta_energy_ret_integrate_wh := 0 }
  else s

/-- The script's `updateChangeDetection(total_energy_wh, total_energy_ret_wh)`
(lines 340-354). -/
def updateChangeDetection (s : S) (now_ms total_energy_wh total_energy_ret_wh : ℚ) : S :=
  if !(isNumber s.last_seen_total_energy_wh) || !(isNumber s.last_seen_total_energy_ret_wh) then
    { s with
      last_seen_total_energy_wh := some total_energy_wh
      last_seen_total_energy_ret_wh := some total_energy_ret_wh }
  else
    if s.last_seen_total_energy_wh ≠ some total_energy_wh
        ∨ s.last_seen_total_energy_ret_wh ≠ some total_energy_ret_wh then
      { s with
        totals_changed_since_last_correction := true
        totals_last_change_uptime_ms := now_ms
        last_seen_total_energy_wh := some total_energy_wh
        last_seen_total_energy_ret_wh := some total_energy_ret_wh }
    else s

/-- The correction-factor computation of `applyCorrectionIfReady` before the
clamp (lines 375-384).  The script's `isNumber(delta_energy_integrate_sum)` and
`isNumber(correction_factor)` guards are identically true over `ℚ` (every
rational is a finite number), so only the epsilon and `<= 0.001` guards remain. -/
def correctionFactor (delta_energy_sum delta_energy_integrate_sum : ℚ) : ℚ :=
  if jsAbs delta_energy_integrate_sum > ENERGY_EPSILON_WH then
    let cf := delta_energy_sum / delta_energy_integrate_sum
    if cf ≤ 1 / 1000 then 1 else cf
  else 1

/-- The correction factor actually applied: the script's sanity clamp to
`[0.1, 10.0]` (line 388) applied to `correctionFactor`. -/
def clampedCorrectionFactor (delta_energy_sum delta_energy_integrate_sum : ℚ) : ℚ :=
  clampMinMax (correctionFactor delta_energy_sum delta_energy_integrate_sum) (1 / 10) 10

/-- The script's `applyCorrectionIfReady(total_energy_wh, total_energy_ret_wh)`
(lines 357-424).  Returns the new state and whether a correction was applied.
The baseline subtractions use `Option.getD 0` because JavaScript coerces `null`
to `0` in `total_energy_wh - baseline_total_energy_wh`; the script only reaches
them with an established baseline (see the baseline-establishment theorem). -/
def applyCorrectionIfReady (s : S) (now_ms total_energy_wh total_energy_ret_wh : ℚ) : S × Bool :=
  if !s.totals_changed_since_last_correction then (s, false)
  else if now_ms - s.totals_last_change_uptime_ms < 5000 then (s, false)
  else
    let delta_total_energy_wh := total_energy_wh - s.baseline_total_energy_wh.getD 0
    let delta_total_energy_ret_wh := total_energy_ret_wh - s.baseline_total_energy_ret_wh.getD 0
    let delta_energy_sum := delta_total_energy_wh - delta_total_energy_ret_wh
    let delta_energy_integrate_sum := s.delta_energy_integrate_wh - s.delta_energy_ret_integrate_wh
    let correction_factor := clampedCorrectionFactor delta_energy_sum delta_energy_integrate_sum
    ({ s with
        net_metered_energy_wh :=
          s.net_metered_energy_wh + s.delta_energy_integrate_wh * correction_factor
        net_metered_energy_ret_wh :=
          s.net_metered_energy_ret_wh + s.delta_energy_ret_integrate_wh * correction_factor
        baseline_total_energy_wh := some total_energy_wh
        baseline_total_energy_ret_wh := some total_energy_ret_wh
        delta_energy_integrate_wh := 0
        delta_energy_ret_integrate_wh := 0
        totals_changed_since_last_correction := false
        last_correction_uptime_ms := now_ms
        last_integration_uptime_ms := some now_ms }, true)

/-- The script's `tick()` (lines 431-442): integrate power, then — only when a
valid reference reading is available — run baseline establishment, change
detection and the correction step.  The `Bool` records whether a correction was
applied. -/
def tick (s : S) (i : Input) : S × Bool :=
  let s1 := integratePower s i.now_ms i.power_w
  match i.totals with
  | none => (s1, false)
  | some (t1, t2) =>
    let s2 := startNewWindowBaselineIfNeeded s1 i.now_ms t1 t2
    let s3 := updateChangeDetection s2 i.now_ms t1 t2
    applyCorrectionIfReady s3 i.now_ms t1 t2

/-- The startup state after `loadPersistedNetMeteredValuesFromVirtualComponents`
loaded the two persisted lifetime totals: every other global keeps its
initialiser from lines 79-102 of the script. -/
def init (loaded_wh loaded_ret_wh : ℚ) : S :=
  { net_metered_energy_wh := loaded_wh
    net_metered_energy_ret_wh := loaded_ret_wh
    delta_energy_integrate_wh := 0
    delta_energy_ret_integrate_wh := 0
    baseline_total_energy_wh := none
    baseline_total_energy_ret_wh := none
    last_seen_total_energy_wh := none
    last_seen_total_energy_ret_wh := none
    totals_changed_since_last_correction := false
    totals_last_change_uptime_ms := 0
    last_correction_uptime_ms := 0
    last_integration_uptime_ms := none }

/-- Run a sequence of ticks. -/
def run (s : S) : List Input → S
  | [] => s
  | i :: is => run (tick s i).1 is

/-- The sequence of correction decisions (whether each tick applied a
correction) along a run. -/
def decisions (s : S) : List Input → List Bool
  | [] => []
  | i :: is => (tick s i).2 :: decisions (tick s i).1 is

/-- Concrete pre-correction state used by witnesses and the counterexample:
reached from startup by establishing the baseline at `t = 0` with reading
`(100, 50)`, then observing the reference change to `(101, 50)` at `t = 1000`. -/
def sPre : S :=
  run (init 0 0) [⟨0, none, some (100, 50)⟩, ⟨1000, none, some (101, 50)⟩]

/-- Both window totals are non-negative. -/
def WindowNonneg (s : S) : Prop :=
  0 ≤ s.delta_energy_integrate_wh ∧ 0 ≤ s.delta_energy_ret_integrate_wh

/-- Everything of the state except `last_correction_uptime_ms` (which is
scrubbed to 0): two states have equal `obs` exactly when they agree on the
lifetime totals, window totals, baseline, last-seen pair, changed flag, change
stamp and integration anchor. -/
def obs (s : S) : S :=
  { s with last_correction_uptime_ms := 0 }

/-- The modelled `Math.abs` agrees with the mathematical absolute value. -/
theorem jsAbs_eq_abs (x : ℚ) : jsAbs x = |x| := by
  simp only [jsAbs, abs]
  rcases lt_or_le x 0 with h | h
  · rw [if_pos h, max_eq_right (by linarith)]
  · rw [if_neg (not_lt.mpr h), max_eq_left (by linarith)]

/-- C7: with an established anchor and `dt_ms <= 0`, `integratePower` is the
identity: no window total changes, no power sample contributes, and the anchor
keeps its previous value. -/
theorem integratePower_nonpositive_dt_noop (s : S) (t now_ms : ℚ) (power_w : Option ℚ)
    (hanchor : s.last_integration_uptime_ms = some t)
    (hdt : now_ms - t ≤ 0) :
    integratePower s now_ms power_w = s := by
  simp only [integratePower, hanchor]
  rw [if_pos hdt]

/-- Witness for `integratePower_nonpositive_dt_noop` at a concrete input. -/
theorem integratePower_nonpositive_dt_noop_witness :
    ({ init 0 0 with last_integration_uptime_ms := some 5 } : S).last_integration_uptime_ms = some 5
    ∧ ((5 : ℚ) - 5 ≤ 0)
    ∧ integratePower { init 0 0 with last_integration_uptime_ms := some 5 } 5 (some 100) =
        { init 0 0 with last_integration_uptime_ms := some 5 } :=
  ⟨rfl, by norm_num,
    integratePower_nonpositive_dt_noop { init 0 0 with last_integration_uptime_ms := some 5 }
      5 5 (some 100) rfl (by norm_num)⟩

/-- C8: with an established anchor and `dt_ms > 0` but the power sample
unavailable or non-finite (`none`), `integratePower` leaves both window totals
(and everything else) unchanged but still advances the anchor to `now_ms`. -/
theorem integratePower_unavailable_power_advances_anchor (s : S) (t now_ms : ℚ)
    (hanchor : s.last_integration_uptime_ms = some t)
    (hdt : 0 < now_ms - t) :
    integratePower s now_ms none = { s with last_integration_uptime_ms := some now_ms } := by
  simp only [integratePower, hanchor]
  rw [if_neg (not_le.mpr hdt)]

/-- Witness for `integratePower_unavailable_power_advances_anchor`. -/
theorem integratePower_unavailable_power_advances_anchor_witness :
    ({ init 0 0 with last_integration_uptime_ms := some 0 } : S).last_integration_uptime_ms = some 0
    ∧ ((0 : ℚ) < 1000 - 0)
    ∧ integratePower { init 0 0 with last_integration_uptime_ms := some 0 } 1000 none =
        { init 0 0 with last_integration_uptime_ms := some 1000 } :=
  ⟨rfl, by norm_num,
    integratePower_unavailable_power_advances_anchor
      { init 0 0 with last_integration_uptime_ms := some 0 } 0 1000 rfl (by norm_num)⟩

/-- C2: with an established anchor, `dt_ms > 0` and a finite power sample, the
energy added is exactly `power_w * dt_ms / 3600000` Wh — to the window's
imported total when it is `>= 0`, its absolute value to the window's exported
total when it is `< 0` — and nothing else changes except the anchor advancing
to `now_ms`.  The nominal tick interval `INTEGRATION_TICK_MS` does not occur in
`integratePower` at all, so the result is independent of it. -/
theorem integratePower_adds_exact_energy (s : S) (t now_ms power_w : ℚ)
    (hanchor : s.last_integration_uptime_ms = some t)
    (hdt : 0 < now_ms - t) :
    integratePower s now_ms (some power_w) =
      (if 0 ≤ power_w * ((now_ms - t) / 3600000) then
        { s with
            last_integration_uptime_ms := some now_ms
            delta_energy_integrate_wh :=
              s.delta_energy_integrate_wh + power_w * ((now_ms - t) / 3600000) }
      else
        { s with
            last_integration_uptime_ms := some now_ms
            delta_energy_ret_integrate_wh :=
              s.delta_energy_ret_integrate_wh + -(power_w * ((now_ms - t) / 3600000)) }) := by
  simp only [integratePower, hanchor]
  rw [if_neg (not_le.mpr hdt)]

/-- Witness for `integratePower_adds_exact_energy`: 5 W over one hour adds
exactly 5 Wh to the window import total. -/
theorem integratePower_adds_exact_energy_witness :
    ({ init 0 0 with last_integration_uptime_ms := some 0 } : S).last_integration_uptime_ms = some 0
    ∧ ((0 : ℚ) < 3600000 - 0)
    ∧ integratePower { init 0 0 with last_integration_uptime_ms := some 0 } 3600000 (some 5) =
        (if 0 ≤ (5 : ℚ) * ((3600000 - 0) / 3600000) then
          { ({ init 0 0 with last_integration_uptime_ms := some 0 } : S) with
              last_integration_uptime_ms := some 3600000
              delta_energy_integrate_wh := 0 + 5 * (((3600000 : ℚ) - 0) / 3600000) }
        else
          { ({ init 0 0 with last_integration_uptime_ms := some 0 } : S) with
              last_integration_uptime_ms := some 3600000
              delta_energy_ret_integrate_wh := 0 + -(5 * (((3600000 : ℚ) - 0) / 3600000)) }) :=
  ⟨rfl, by norm_num,
    integratePower_adds_exact_energy { init 0 0 with last_integration_uptime_ms := some 0 }
      0 3600000 5 rfl (by norm_num)⟩

/-- C4: the correction factor is 1 whenever the signed integrated window net
`int_net` is within the `0.001` Wh epsilon of zero (regardless of `ref_net`);
otherwise it is `ref_net / int_net`, reset to 1 whenever that quotient is
`<= 0.001`.  Non-finiteness of `int_net` or of the quotient cannot arise over
`ℚ` (the script's `isNumber` guards on them are identically true here).  The
final conjunct is the spec's particular case: `|int_net| <= 0.001` with nonzero
`ref_net` still yields factor 1. -/
theorem correctionFactor_epsilon_guard :
    (∀ ref_net int_net : ℚ,
      correctionFactor ref_net int_net =
        if |int_net| ≤ ENERGY_EPSILON_WH then 1
        else if ref_net / int_net ≤ 1 / 1000 then 1
        else ref_net / int_net)
    ∧ correctionFactor 7 (1 / 1000) = 1 := by
  constructor
  · intro ref_net int_net
    simp only [correctionFactor, jsAbs_eq_abs, ENERGY_EPSILON_WH]
    rcases le_or_lt |int_net| (1 / 1000) with h | h
    · rw [if_neg (not_lt.mpr h), if_pos h]
    · rw [if_pos h, if_neg (not_le.mpr h)]
  · with_unfolding_all decide

/-- The clamp produces a value inside `[minValue, maxValue]` whenever the
bounds are ordered. -/
theorem clampMinMax_mem (value minValue maxValue : ℚ) (h : minValue ≤ maxValue) :
    minValue ≤ clampMinMax value minValue maxValue
    ∧ clampMinMax value minValue maxValue ≤ maxValue := by
  simp only [clampMinMax]
  split_ifs with h1 h2 <;> constructor <;> linarith

/-- C5: the factor finally applied lies in `[0.1, 10.0]` for every window; a
window whose reference net is 50 times its integrated net yields exactly 10 (not
50) and the inverse ratio yields exactly 0.1; and a successful correction
multiplies the window's imported total and the window's exported total by the
same single clamped factor. -/
theorem clamped_factor_bounds_uniform :
    (∀ delta_energy_sum delta_energy_integrate_sum : ℚ,
      1 / 10 ≤ clampedCorrectionFactor delta_energy_sum delta_energy_integrate_sum
      ∧ clampedCorrectionFactor delta_energy_sum delta_energy_integrate_sum ≤ 10)
    ∧ clampedCorrectionFactor 50 1 = 10
    ∧ clampedCorrectionFactor 1 50 = 1 / 10
    ∧ (∀ (s : S) (now_ms t1 t2 : ℚ),
        (applyCorrectionIfReady s now_ms t1 t2).2 = true →
        (applyCorrectionIfReady s now_ms t1 t2).1.net_metered_energy_wh =
          s.net_metered_energy_wh + s.delta_energy_integrate_wh *
            clampedCorrectionFactor
              ((t1 - s.baseline_total_energy_wh.getD 0)
                - (t2 - s.baseline_total_energy_ret_wh.getD 0))
              (s.delta_energy_integrate_wh - s.delta_energy_ret_integrate_wh)
        ∧ (applyCorrectionIfReady s now_ms t1 t2).1.net_metered_energy_ret_wh =
          s.net_metered_energy_ret_wh + s.delta_energy_ret_integrate_wh *
            clampedCorrectionFactor
              ((t1 - s.baseline_total_energy_wh.getD 0)
                - (t2 - s.baseline_total_energy_ret_wh.getD 0))
              (s.delta_energy_integrate_wh - s.delta_energy_ret_integrate_wh)) := by
  refine ⟨?_, ?_, ?_, ?_⟩
  · intro ds dis
    exact clampMinMax_mem _ _ _ (by norm_num)
  · with_unfolding_all decide
  · with_unfolding_all decide
  · intro s now_ms t1 t2 h
    simp only [applyCorrectionIfReady] at h ⊢
    split_ifs at h ⊢
    exact ⟨rfl, rfl⟩

/-- Witness for `clamped_factor_bounds_uniform`: the correction reached from
startup in `sPre` at `t = 6000` scales both lifetime updates by one factor. -/
theorem clamped_factor_bounds_uniform_witness :
    (applyCorrectionIfReady sPre 6000 101 50).2 = true
    ∧ ((applyCorrectionIfReady sPre 6000 101 50).1.net_metered_energy_wh =
        sPre.net_metered_energy_wh + sPre.delta_energy_integrate_wh *
          clampedCorrectionFactor
            ((101 - sPre.baseline_total_energy_wh.getD 0)
              - (50 - sPre.baseline_total_energy_ret_wh.getD 0))
            (sPre.delta_energy_integrate_wh - sPre.delta_energy_ret_integrate_wh)
      ∧ (applyCorrectionIfReady sPre 6000 101 50).1.net_metered_energy_ret_wh =
        sPre.net_metered_energy_ret_wh + sPre.delta_energy_ret_integrate_wh *
          clampedCorrectionFactor
            ((101 - sPre.baseline_total_energy_wh.getD 0)
              - (50 - sPre.baseline_total_energy_ret_wh.getD 0))
            (sPre.delta_energy_integrate_wh - sPre.delta_energy_ret_integrate_wh)) :=
  ⟨by with_unfolding_all decide,
    clamped_factor_bounds_uniform.2.2.2 sPre 6000 101 50 (by with_unfolding_all decide)⟩

/-- A correction is applied only past the stability gate: the changed flag was
set and at least 5000 ms elapsed since the recorded last-change stamp. -/
theorem applyCorrection_gate (s : S) (now_ms t1 t2 : ℚ)
    (h : (applyCorrectionIfReady s now_ms t1 t2).2 = true) :
    s.totals_changed_since_last_correction = true
    ∧ 5000 ≤ now_ms - s.totals_last_change_uptime_ms := by
  simp only [applyCorrectionIfReady] at h
  split_ifs at h with h1 h2
  exact ⟨by simpa using h1, by linarith [not_lt.mp h2]⟩

/-- C3: a tick applies a correction only when, at the point the correction step
runs (after baseline establishment and change detection in the same tick), the
changed-since-last-correction flag is set and at least 5000 ms have elapsed
since the last recorded reference change; and every detected reference change
re-stamps the change time to the current tick's clock, so a second change within
5000 ms pushes the earliest possible correction out to 5000 ms after it. -/
theorem correction_gate_quiet :
    (∀ (s : S) (i : Input) (t1 t2 : ℚ), i.totals = some (t1, t2) → (tick s i).2 = true →
      (updateChangeDetection (startNewWindowBaselineIfNeeded
          (integratePower s i.now_ms i.power_w) i.now_ms t1 t2) i.now_ms t1
          t2).totals_changed_since_last_correction = true
      ∧ 5000 ≤ i.now_ms - (updateChangeDetection (startNewWindowBaselineIfNeeded
          (integratePower s i.now_ms i.power_w) i.now_ms t1 t2) i.now_ms t1
          t2).totals_last_change_uptime_ms)
    ∧ (∀ (s : S) (now_ms t1 t2 u v : ℚ),
        s.last_seen_total_energy_wh = some u →
        s.last_seen_total_energy_ret_wh = some v →
        t1 ≠ u ∨ t2 ≠ v →
        (updateChangeDetection s now_ms t1 t2).totals_last_change_uptime_ms = now_ms
        ∧ (updateChangeDetection s now_ms t1 t2).totals_changed_since_last_correction = true) := by
  constructor
  · rintro s ⟨now_ms, power_w, totals⟩ t1 t2 ht h
    simp only at ht
    subst ht
    simp only [tick] at h
    exact applyCorrection_gate _ _ _ _ h
  · intro s now_ms t1 t2 u v hu hv hne
    have hcond : ¬u = t1 ∨ ¬v = t2 := hne.imp (fun h => Ne.symm h) (fun h => Ne.symm h)
    simp [updateChangeDetection, hu, hv, isNumber, hcond]

/-- Witness for `correction_gate_quiet`: the correction fired from `sPre` at
`t = 6000` (change recorded at `t = 1000`), and a fresh change at `t = 2000`
against last-seen `(101, 50)` re-stamps the change time. -/
theorem correction_gate_quiet_witness :
    ((Input.mk 6000 none (some (101, 50))).totals = some (101, 50)
      ∧ (tick sPre ⟨6000, none, some (101, 50)⟩).2 = true
      ∧ (updateChangeDetection (startNewWindowBaselineIfNeeded
          (integratePower sPre 6000 none) 6000 101 50) 6000 101
          50).totals_changed_since_last_correction = true
      ∧ 5000 ≤ (6000 : ℚ) - (updateChangeDetection (startNewWindowBaselineIfNeeded
          (integratePower sPre 6000 none) 6000 101 50) 6000 101
          50).totals_last_change_uptime_ms)
    ∧ (sPre.last_seen_total_energy_wh = some 101
      ∧ sPre.last_seen_total_energy_ret_wh = some 50
      ∧ ((102 : ℚ) ≠ 101 ∨ (50 : ℚ) ≠ 50)
      ∧ (updateChangeDetection sPre 2000 102 50).totals_last_change_uptime_ms = 2000
      ∧ (updateChangeDetection sPre 2000 102 50).totals_changed_since_last_correction = true) := by
  have h1 := correction_gate_quiet.1 sPre ⟨6000, none, some (101, 50)⟩ 101 50 rfl
    (by with_unfolding_all decide)
  have h2 := correction_gate_quiet.2 sPre 2000 102 50 101 50
    (by with_unfolding_all decide) (by with_unfolding_all decide)
    (Or.inl (by norm_num))
  exact ⟨⟨rfl, by with_unfolding_all decide, h1.1, h1.2⟩,
    by with_unfolding_all decide, by with_unfolding_all decide,
    Or.inl (by norm_num), h2.1, h2.2⟩

/-- C6 counterexample: along the concrete run reaching `sPre`, the correction
that fires at `now_ms = 6000` leaves `totals_last_change_uptime_ms` at its old
value 1000 instead of re-stamping it to `now_ms`, refuting the claim that the
post-correction state satisfies `last_change_time_ms = now_ms`. -/
theorem correction_restamp_cex :
    (tick sPre ⟨6000, none, some (101, 50)⟩).2 = true
    ∧ ¬((tick sPre ⟨6000, none, some (101, 50)⟩).1.totals_last_change_uptime_ms = 6000) := by
  with_unfolding_all decide

/-- C6 (amended): immediately after every successful correction at time
`now_ms`, the baseline equals the current reference reading, both window totals
are exactly 0, the changed flag is cleared, `last_correction_uptime_ms = now_ms`
and the integration anchor equals `now_ms`; `totals_last_change_uptime_ms` is
left unchanged (the script does not re-stamp it on correction). -/
theorem correction_post_state (s : S) (now_ms t1 t2 : ℚ)
    (h : (applyCorrectionIfReady s now_ms t1 t2).2 = true) :
    (applyCorrectionIfReady s now_ms t1 t2).1.baseline_total_energy_wh = some t1
    ∧ (applyCorrectionIfReady s now_ms t1 t2).1.baseline_total_energy_ret_wh = some t2
    ∧ (applyCorrectionIfReady s now_ms t1 t2).1.delta_energy_integrate_wh = 0
    ∧ (applyCorrectionIfReady s now_ms t1 t2).1.delta_energy_ret_integrate_wh = 0
    ∧ (applyCorrectionIfReady s now_ms t1 t2).1.totals_changed_since_last_correction = false
    ∧ (applyCorrectionIfReady s now_ms t1 t2).1.totals_last_change_uptime_ms =
        s.totals_last_change_uptime_ms
    ∧ (applyCorrectionIfReady s now_ms t1 t2).1.last_correction_uptime_ms = now_ms
    ∧ (applyCorrectionIfReady s now_ms t1 t2).1.last_integration_uptime_ms = some now_ms := by
  simp only [applyCorrectionIfReady] at h ⊢
  split_ifs at h ⊢
  exact ⟨rfl, rfl, rfl, rfl, rfl, rfl, rfl, rfl⟩

/-- Witness for `correction_post_state` at the correction fired from `sPre`. -/
theorem correction_post_state_witness :
    (applyCorrectionIfReady sPre 6000 101 50).2 = true
    ∧ ((applyCorrectionIfReady sPre 6000 101 50).1.baseline_total_energy_wh = some 101
      ∧ (applyCorrectionIfReady sPre 6000 101 50).1.baseline_total_energy_ret_wh = some 50
      ∧ (applyCorrectionIfReady sPre 6000 101 50).1.delta_energy_integrate_wh = 0
      ∧ (applyCorrectionIfReady sPre 6000 101 50).1.delta_energy_ret_integrate_wh = 0
      ∧ (applyCorrectionIfReady sPre 6000 101 50).1.totals_changed_since_last_correction = false
      ∧ (applyCorrectionIfReady sPre 6000 101 50).1.totals_last_change_uptime_ms =
          sPre.totals_last_change_uptime_ms
      ∧ (applyCorrectionIfReady sPre 6000 101 50).1.last_correction_uptime_ms = 6000
      ∧ (applyCorrectionIfReady sPre 6000 101 50).1.last_integration_uptime_ms = some 6000) :=
  ⟨by with_unfolding_all decide,
    correction_post_state sPre 6000 101 50 (by with_unfolding_all decide)⟩

/-- Change detection never touches the baseline fields. -/
theorem updateChangeDetection_baseline (s : S) (now_ms t1 t2 : ℚ) :
    (updateChangeDetection s now_ms t1 t2).baseline_total_energy_wh =
      s.baseline_total_energy_wh
    ∧ (updateChangeDetection s now_ms t1 t2).baseline_total_energy_ret_wh =
      s.baseline_total_energy_ret_wh := by
  simp only [updateChangeDetection]
  split_ifs <;> exact ⟨rfl, rfl⟩

/-- After `startNewWindowBaselineIfNeeded` runs on a valid reference reading,
both baseline components are established. -/
theorem startNewWindowBaseline_isSome (s : S) (now_ms t1 t2 : ℚ) :
    isNumber (startNewWindowBaselineIfNeeded s now_ms t1 t2).baseline_total_energy_wh = true
    ∧ isNumber (startNewWindowBaselineIfNeeded s now_ms t1 t2).baseline_total_energy_ret_wh
        = true := by
  simp only [startNewWindowBaselineIfNeeded]
  split_ifs with h
  · exact ⟨rfl, rfl⟩
  · simp only [Bool.or_eq_true, Bool.not_eq_true'] at h
    push_neg at h
    exact ⟨by simpa using h.1, by simpa using h.2⟩

/-- C9: on every tick that carries a valid reference reading, the state handed
to `applyCorrectionIfReady` (after `startNewWindowBaselineIfNeeded` and
`updateChangeDetection` have run in the same tick) has both baseline components
set to finite numbers, so the correction body never reads an unset baseline —
in particular starting from the uninitialized state. -/
theorem correction_baseline_established (s : S) (i : Input) (t1 t2 : ℚ)
    (ht : i.totals = some (t1, t2)) :
    isNumber ((updateChangeDetection (startNewWindowBaselineIfNeeded
        (integratePower s i.now_ms i.power_w) i.now_ms t1 t2) i.now_ms t1
        t2).baseline_total_energy_wh) = true
    ∧ isNumber ((updateChangeDetection (startNewWindowBaselineIfNeeded
        (integratePower s i.now_ms i.power_w) i.now_ms t1 t2) i.now_ms t1
        t2).baseline_total_energy_ret_wh) = true := by
  have hb := startNewWindowBaseline_isSome (integratePower s i.now_ms i.power_w) i.now_ms t1 t2
  have hu := updateChangeDetection_baseline
    (startNewWindowBaselineIfNeeded (integratePower s i.now_ms i.power_w) i.now_ms t1 t2)
    i.now_ms t1 t2
  rw [hu.1, hu.2]
  exact hb

/-- Witness for `correction_baseline_established`: the very first tick from the
uninitialized startup state. -/
theorem correction_baseline_established_witness :
    (Input.mk 0 none (some (100, 50))).totals = some (100, 50)
    ∧ (isNumber ((updateChangeDetection (startNewWindowBaselineIfNeeded
        (integratePower (init 0 0) 0 none) 0 100 50) 0 100
        50).baseline_total_energy_wh) = true
      ∧ isNumber ((updateChangeDetection (startNewWindowBaselineIfNeeded
        (integratePower (init 0 0) 0 none) 0 100 50) 0 100
        50).baseline_total_energy_ret_wh) = true) :=
  ⟨rfl, correction_baseline_established (init 0 0) ⟨0, none, some (100, 50)⟩ 100 50 rfl⟩

/-- Integration never touches the lifetime totals and keeps the window totals
non-negative (it only ever adds a non-negative quantity to either). -/
theorem integratePower_preserves (s : S) (now_ms : ℚ) (power_w : Option ℚ) :
    (integratePower s now_ms power_w).net_metered_energy_wh = s.net_metered_energy_wh
    ∧ (integratePower s now_ms power_w).net_metered_energy_ret_wh = s.net_metered_energy_ret_wh
    ∧ (0 ≤ s.delta_energy_integrate_wh →
        0 ≤ (integratePower s now_ms power_w).delta_energy_integrate_wh)
    ∧ (0 ≤ s.delta_energy_ret_integrate_wh →
        0 ≤ (integratePower s now_ms power_w).delta_energy_ret_integrate_wh) := by
  rcases hl : s.last_integration_uptime_ms with _ | t
  · simp [integratePower, hl]
  · simp only [integratePower, hl]
    split_ifs with hdt
    · simp
    · cases power_w with
      | none => simp
      | some p =>
        dsimp only
        split_ifs with he
        · refine ⟨rfl, rfl, fun h => add_nonneg h he, fun h => h⟩
        · refine ⟨rfl, rfl, fun h => h, fun h => add_nonneg h (by linarith [not_le.mp he])⟩

/-- Baseline establishment never touches the lifetime totals and keeps the
window totals non-negative (it either leaves them alone or resets them to 0). -/
theorem startNewWindowBaseline_preserves (s : S) (now_ms t1 t2 : ℚ) :
    (startNewWindowBaselineIfNeeded s now_ms t1 t2).net_metered_energy_wh =
      s.net_metered_energy_wh
    ∧ (startNewWindowBaselineIfNeeded s now_ms t1 t2).net_metered_energy_ret_wh =
      s.net_metered_energy_ret_wh
    ∧ (0 ≤ s.delta_energy_integrate_wh →
        0 ≤ (startNewWindowBaselineIfNeeded s now_ms t1 t2).delta_energy_integrate_wh)
    ∧ (0 ≤ s.delta_energy_ret_integrate_wh →
        0 ≤ (startNewWindowBaselineIfNeeded s now_ms t1 t2).delta_energy_ret_integrate_wh) := by
  simp only [startNewWindowBaselineIfNeeded]
  split_ifs
  · exact ⟨rfl, rfl, fun _ => le_refl 0, fun _ => le_refl 0⟩
  · exact ⟨rfl, rfl, fun h => h, fun h => h⟩

/-- Change detection touches neither the lifetime totals nor the window totals. -/
theorem updateChangeDetection_preserves (s : S) (now_ms t1 t2 : ℚ) :
    (updateChangeDetection s now_ms t1 t2).net_metered_energy_wh = s.net_metered_energy_wh
    ∧ (updateChangeDetection s now_ms t1 t2).net_metered_energy_ret_wh =
      s.net_metered_energy_ret_wh
    ∧ (updateChangeDetection s now_ms t1 t2).delta_energy_integrate_wh =
      s.delta_energy_integrate_wh
    ∧ (updateChangeDetection s now_ms t1 t2).delta_energy_ret_integrate_wh =
      s.delta_energy_ret_integrate_wh := by
  simp only [updateChangeDetection]
  split_ifs <;> exact ⟨rfl, rfl, rfl, rfl⟩

/-- With non-negative window totals, the correction step can only increase the
lifetime totals (the clamped factor is at least 0.1 > 0), and it leaves the
window totals non-negative (resetting them to 0 when it fires). -/
theorem applyCorrection_mono (s : S) (now_ms t1 t2 : ℚ)
    (hd : 0 ≤ s.delta_energy_integrate_wh) (hdr : 0 ≤ s.delta_energy_ret_integrate_wh) :
    s.net_metered_energy_wh ≤ (applyCorrectionIfReady s now_ms t1 t2).1.net_metered_energy_wh
    ∧ s.net_metered_energy_ret_wh ≤
        (applyCorrectionIfReady s now_ms t1 t2).1.net_metered_energy_ret_wh
    ∧ 0 ≤ (applyCorrectionIfReady s now_ms t1 t2).1.delta_energy_integrate_wh
    ∧ 0 ≤ (applyCorrectionIfReady s now_ms t1 t2).1.delta_energy_ret_integrate_wh := by
  simp only [applyCorrectionIfReady]
  split_ifs
  · exact ⟨le_refl _, le_refl _, hd, hdr⟩
  · exact ⟨le_refl _, le_refl _, hd, hdr⟩
  · have hf : (0 : ℚ) ≤ clampedCorrectionFactor
        ((t1 - s.baseline_total_energy_wh.getD 0) - (t2 - s.baseline_total_energy_ret_wh.getD 0))
        (s.delta_energy_integrate_wh - s.delta_energy_ret_integrate_wh) :=
      le_trans (by norm_num) (clampMinMax_mem _ _ _ (by norm_num)).1
    exact ⟨le_add_of_nonneg_right (mul_nonneg hd hf),
      le_add_of_nonneg_right (mul_nonneg hdr hf), le_refl 0, le_refl 0⟩

/-- One tick never decreases either lifetime total and preserves window
non-negativity. -/
theorem tick_mono (s : S) (i : Input) (hw : WindowNonneg s) :
    s.net_metered_energy_wh ≤ (tick s i).1.net_metered_energy_wh
    ∧ s.net_metered_energy_ret_wh ≤ (tick s i).1.net_metered_energy_ret_wh
    ∧ WindowNonneg (tick s i).1 := by
  obtain ⟨now_ms, power_w, totals⟩ := i
  have h1 := integratePower_preserves s now_ms power_w
  simp only [tick]
  cases totals with
  | none =>
    exact ⟨le_of_eq h1.1.symm, le_of_eq h1.2.1.symm, h1.2.2.1 hw.1, h1.2.2.2 hw.2⟩
  | some tt =>
    obtain ⟨t1, t2⟩ := tt
    have h2 := startNewWindowBaseline_preserves (integratePower s now_ms power_w) now_ms t1 t2
    have h3 := updateChangeDetection_preserves
      (startNewWindowBaselineIfNeeded (integratePower s now_ms power_w) now_ms t1 t2) now_ms t1 t2
    have hwd : 0 ≤ (updateChangeDetection (startNewWindowBaselineIfNeeded
        (integratePower s now_ms power_w) now_ms t1 t2) now_ms t1
        t2).delta_energy_integrate_wh := by
      rw [h3.2.2.1]
      exact h2.2.2.1 (h1.2.2.1 hw.1)
    have hwdr : 0 ≤ (updateChangeDetection (startNewWindowBaselineIfNeeded
        (integratePower s now_ms power_w) now_ms t1 t2) now_ms t1
        t2).delta_energy_ret_integrate_wh := by
      rw [h3.2.2.2]
      exact h2.2.2.2 (h1.2.2.2 hw.2)
    have h4 := applyCorrection_mono (updateChangeDetection (startNewWindowBaselineIfNeeded
      (integratePower s now_ms power_w) now_ms t1 t2) now_ms t1 t2) now_ms t1 t2 hwd hwdr
    refine ⟨?_, ?_, h4.2.2.1, h4.2.2.2⟩
    · calc s.net_metered_energy_wh
          = (updateChangeDetection (startNewWindowBaselineIfNeeded
              (integratePower s now_ms power_w) now_ms t1 t2) now_ms t1
              t2).net_metered_energy_wh := by rw [h3.1, h2.1, h1.1]
        _ ≤ _ := h4.1
    · calc s.net_metered_energy_ret_wh
          = (updateChangeDetection (startNewWindowBaselineIfNeeded
              (integratePower s now_ms power_w) now_ms t1 t2) now_ms t1
              t2).net_metered_energy_ret_wh := by rw [h3.2.1, h2.2.1, h1.2.1]
        _ ≤ _ := h4.2.1

/-- Window non-negativity is preserved along every run. -/
theorem run_windowNonneg (s : S) (hw : WindowNonneg s) (is : List Input) :
    WindowNonneg (run s is) := by
  induction is generalizing s with
  | nil => exact hw
  | cons i is ih => exact ih (tick s i).1 (tick_mono s i hw).2.2

/-- C1: starting from non-negative loaded lifetime totals, along every sequence
of ticks (any interleaving of power samples, reference readings, unavailability
and clock values) neither `net_metered_energy_wh` nor
`net_metered_energy_ret_wh` ever decreases: the next tick's values dominate the
current ones after any prefix `is`. -/
theorem lifetime_totals_monotone (l1 l2 : ℚ) (h1 : 0 ≤ l1) (h2 : 0 ≤ l2)
    (is : List Input) (i : Input) :
    (run (init l1 l2) is).net_metered_energy_wh ≤
      (tick (run (init l1 l2) is) i).1.net_metered_energy_wh
    ∧ (run (init l1 l2) is).net_metered_energy_ret_wh ≤
      (tick (run (init l1 l2) is) i).1.net_metered_energy_ret_wh := by
  have hw : WindowNonneg (run (init l1 l2) is) :=
    run_windowNonneg (init l1 l2) ⟨le_refl 0, le_refl 0⟩ is
  have h := tick_mono (run (init l1 l2) is) i hw
  exact ⟨h.1, h.2.1⟩

/-- Witness for `lifetime_totals_monotone` on a concrete run: loaded totals
`(2, 3)`, one baseline-establishing tick, then the change-observing tick. -/
theorem lifetime_totals_monotone_witness :
    (0 : ℚ) ≤ 2 ∧ (0 : ℚ) ≤ 3
    ∧ ((run (init 2 3) [⟨0, none, some (100, 50)⟩]).net_metered_energy_wh ≤
        (tick (run (init 2 3) [⟨0, none, some (100, 50)⟩])
          ⟨1000, some 720, some (101, 50)⟩).1.net_metered_energy_wh
      ∧ (run (init 2 3) [⟨0, none, some (100, 50)⟩]).net_metered_energy_ret_wh ≤
        (tick (run (init 2 3) [⟨0, none, some (100, 50)⟩])
          ⟨1000, some 720, some (101, 50)⟩).1.net_metered_energy_ret_wh) :=
  ⟨by norm_num, by norm_num,
    lifetime_totals_monotone 2 3 (by norm_num) (by norm_num)
      [⟨0, none, some (100, 50)⟩] ⟨1000, some 720, some (101, 50)⟩⟩

/-- Integration neither reads nor depends on `last_correction_uptime_ms`. -/
theorem integratePower_obs (s s' : S) (now_ms : ℚ) (power_w : Option ℚ)
    (h : obs s = obs s') :
    obs (integratePower s now_ms power_w) = obs (integratePower s' now_ms power_w) := by
  obtain ⟨a1, a2, a3, a4, a5, a6, a7, a8, a9, a10, a11, a12⟩ := s
  obtain ⟨b1, b2, b3, b4, b5, b6, b7, b8, b9, b10, b11, b12⟩ := s'
  simp only [obs, S.mk.injEq] at h
  obtain ⟨e1, e2, e3, e4, e5, e6, e7, e8, e9, e10, -, e12⟩ := h
  subst e1; subst e2; subst e3; subst e4; subst e5; subst e6
  subst e7; subst e8; subst e9; subst e10; subst e12
  rcases a12 with _ | t <;> rcases power_w with _ | p <;>
    simp only [integratePower, obs] <;>
    first
      | rfl
      | (split_ifs <;> rfl)

/-- Baseline establishment neither reads nor depends on
`last_correction_uptime_ms` (it may overwrite it, identically on both sides). -/
theorem startNewWindowBaseline_obs (s s' : S) (now_ms t1 t2 : ℚ)
    (h : obs s = obs s') :
    obs (startNewWindowBaselineIfNeeded s now_ms t1 t2) =
      obs (startNewWindowBaselineIfNeeded s' now_ms t1 t2) := by
  obtain ⟨a1, a2, a3, a4, a5, a6, a7, a8, a9, a10, a11, a12⟩ := s
  obtain ⟨b1, b2, b3, b4, b5, b6, b7, b8, b9, b10, b11, b12⟩ := s'
  simp only [obs, S.mk.injEq] at h
  obtain ⟨e1, e2, e3, e4, e5, e6, e7, e8, e9, e10, -, e12⟩ := h
  subst e1; subst e2; subst e3; subst e4; subst e5; subst e6
  subst e7; subst e8; subst e9; subst e10; subst e12
  simp only [startNewWindowBaselineIfNeeded, obs]
  split_ifs <;> rfl

/-- Change detection neither reads nor depends on `last_correction_uptime_ms`. -/
theorem updateChangeDetection_obs (s s' : S) (now_ms t1 t2 : ℚ)
    (h : obs s = obs s') :
    obs (updateChangeDetection s now_ms t1 t2) = obs (updateChangeDetection s' now_ms t1 t2) := by
  obtain ⟨a1, a2, a3, a4, a5, a6, a7, a8, a9, a10, a11, a12⟩ := s
  obtain ⟨b1, b2, b3, b4, b5, b6, b7, b8, b9, b10, b11, b12⟩ := s'
  simp only [obs, S.mk.injEq] at h
  obtain ⟨e1, e2, e3, e4, e5, e6, e7, e8, e9, e10, -, e12⟩ := h
  subst e1; subst e2; subst e3; subst e4; subst e5; subst e6
  subst e7; subst e8; subst e9; subst e10; subst e12
  simp only [updateChangeDetection, obs]
  split_ifs <;> rfl

/-- The correction step neither reads nor depends on
`last_correction_uptime_ms`: `obs`-equal states yield `obs`-equal results and
the same correction decision. -/
theorem applyCorrection_obs (s s' : S) (now_ms t1 t2 : ℚ)
    (h : obs s = obs s') :
    obs (applyCorrectionIfReady s now_ms t1 t2).1 =
      obs (applyCorrectionIfReady s' now_ms t1 t2).1
    ∧ (applyCorrectionIfReady s now_ms t1 t2).2 = (applyCorrectionIfReady s' now_ms t1 t2).2 := by
  obtain ⟨a1, a2, a3, a4, a5, a6, a7, a8, a9, a10, a11, a12⟩ := s
  obtain ⟨b1, b2, b3, b4, b5, b6, b7, b8, b9, b10, b11, b12⟩ := s'
  simp only [obs, S.mk.injEq] at h
  obtain ⟨e1, e2, e3, e4, e5, e6, e7, e8, e9, e10, -, e12⟩ := h
  subst e1; subst e2; subst e3; subst e4; subst e5; subst e6
  subst e7; subst e8; subst e9; subst e10; subst e12
  simp only [applyCorrectionIfReady, obs]
  split_ifs <;> exact ⟨rfl, rfl⟩

/-- One tick reads every state variable except `last_correction_uptime_ms`:
states that agree on `obs` produce `obs`-equal successors and the same
correction decision. -/
theorem tick_obs (s s' : S) (i : Input) (h : obs s = obs s') :
    obs (tick s i).1 = obs (tick s' i).1 ∧ (tick s i).2 = (tick s' i).2 := by
  obtain ⟨now_ms, power_w, totals⟩ := i
  have o1 := integratePower_obs s s' now_ms power_w h
  rcases totals with _ | ⟨t1, t2⟩
  · exact ⟨o1, rfl⟩
  · have o2 := startNewWindowBaseline_obs _ _ now_ms t1 t2 o1
    have o3 := updateChangeDetection_obs _ _ now_ms t1 t2 o2
    exact applyCorrection_obs _ _ now_ms t1 t2 o3

/-- C10: `last_correction_uptime_ms` is write-only.  Two runs over the same
input sequence whose start states differ only in `last_correction_uptime_ms`
agree, after the whole run, on every other state variable (`obs`), and make
identical correction decisions at every tick. -/
theorem last_correction_uptime_write_only (s s' : S) (h : obs s = obs s')
    (is : List Input) :
    obs (run s is) = obs (run s' is) ∧ decisions s is = decisions s' is := by
  induction is generalizing s s' with
  | nil => exact ⟨h, rfl⟩
  | cons i is ih =>
    have hstep := tick_obs s s' i h
    have hrest := ih (tick s i).1 (tick s' i).1 hstep.1
    simp only [run, decisions]
    exact ⟨hrest.1, by rw [hstep.2, hrest.2]⟩

/-- Witness for `last_correction_uptime_write_only`: the three-tick run that
fires a correction, started once with `last_correction_uptime_ms = 0` and once
with `last_correction_uptime_ms = 77`. -/
theorem last_correction_uptime_write_only_witness :
    obs (init 0 0) = obs { init 0 0 with last_correction_uptime_ms := 77 }
    ∧ obs (run (init 0 0) [⟨0, none, some (100, 50)⟩, ⟨1000, none, some (101, 50)⟩,
          ⟨6000, none, some (101, 50)⟩]) =
        obs (run { init 0 0 with last_correction_uptime_ms := 77 }
          [⟨0, none, some (100, 50)⟩, ⟨1000, none, some (101, 50)⟩,
            ⟨6000, none, some (101, 50)⟩])
    ∧ decisions (init 0 0) [⟨0, none, some (100, 50)⟩, ⟨1000, none, some (101, 50)⟩,
          ⟨6000, none, some (101, 50)⟩] =
        decisions { init 0 0 with last_correction_uptime_ms := 77 }
          [⟨0, none, some (100, 50)⟩, ⟨1000, none, some (101, 50)⟩,
            ⟨6000, none, some (101, 50)⟩] :=
  ⟨by with_unfolding_all decide,
    (last_correction_uptime_write_only (init 0 0)
      { init 0 0 with last_correction_uptime_ms := 77 } (by with_unfolding_all decide)
      [⟨0, none, some (100, 50)⟩, ⟨1000, none, some (101, 50)⟩,
        ⟨6000, none, some (101, 50)⟩]).1,
    (last_correction_uptime_write_only (init 0 0)
      { init 0 0 with last_correction_uptime_ms := 77 } (by with_unfolding_all decide)
      [⟨0, none, some (100, 50)⟩, ⟨1000, none, some (101, 50)⟩,
        ⟨6000, none, some (101, 50)⟩]).2⟩
